import Mathlib

/-!
Verification of the Visual Product Matcher similarity-search core.

This file embeds, as Lean definitions, the similarity-search engine of the
repository: the cosine-similarity scorer and enhanced (color-blended) scorer
from `src/server/imageProcessor.js` and from the second `ImageProcessor`
variant embedded in `src/unnamed/part_000`, the color-histogram descriptor,
the URL-error message mapping of `extractFeaturesFromUrl`, and the
`ProductService` ranked search (`findSimilarProducts`, `getAllProducts`,
sample-catalog seeding) from `src/server/productService.js`.

Modelling conventions:
* JavaScript numbers that the code manipulates exactly (scores, prices,
  rounding, comparisons) are modelled as rationals `ℚ`; every IEEE-754
  double is a rational, and the structural claims proved here do not depend
  on rounding of float arithmetic.
* `Math.sqrt` forces the value of cosine similarity into `ℝ`; the
  similarity functions therefore return `Except String ℝ` (a thrown JS
  `Error` is `.error msg`).
* The asynchronous effects of `ProductService` (the Upstash Redis store,
  the feature extractor) are passed explicitly: the store is a value, the
  per-URL feature extractor and the scorer used by the search loop are
  function parameters, so the search pipeline itself is executable.
-/

set_option maxRecDepth 2000

/-- JavaScript `Math.round`: round half toward positive infinity,
`Math.round x = ⌊x + 1/2⌋`. -/
def jsRound (q : ℚ) : ℤ := ⌊q + 1/2⌋

/-- Two-decimal rounding used for the `similarity` field:
`Math.round(similarity * 100) / 100`. -/
def round2 (q : ℚ) : ℚ := (jsRound (q * 100) : ℚ) / 100

/-- The shape of a JavaScript error inspected by the catch-clause of
`extractFeaturesFromUrl`: an optional Node error `code` (`ENOTFOUND`,
`ECONNREFUSED`, `ECONNABORTED`, ...), an optional HTTP response status
(`error.response?.status`), and the error `message`. -/
structure JsError where
  code : Option String
  status : Option Nat
  message : String
deriving DecidableEq

namespace ImageProcessor

/-- One iteration of the `cosineSimilarity` loop in
`src/server/imageProcessor.js` (lines 156-160): accumulate `dotProduct`,
`normA` (sum of squares of A so far) and `normB` (sum of squares of B). -/
def simStep (acc : ℚ × ℚ × ℚ) (ab : ℚ × ℚ) : ℚ × ℚ × ℚ :=
  (acc.1 + ab.1 * ab.2, acc.2.1 + ab.1 * ab.1, acc.2.2 + ab.2 * ab.2)

/-- The full accumulator loop of `cosineSimilarity` over the paired
entries of the two vectors. -/
def simAccum (ps : List (ℚ × ℚ)) : ℚ × ℚ × ℚ :=
  ps.foldl simStep (0, 0, 0)

open Classical in
/-- Function `cosineSimilarity(vectorA, vectorB)` from
`src/server/imageProcessor.js` lines 147-170: throws when the lengths differ, square-roots the accumulated
norms, returns 0 when either is zero, otherwise `dot / (normA * normB)`. -/
noncomputable def cosineSimilarity (vectorA vectorB : List ℚ) :
    Except String ℝ :=
  if vectorA.length ≠ vectorB.length then
    .error "Vectors must have the same length"
  else
    let acc := simAccum (vectorA.zip vectorB)
    if Real.sqrt (acc.2.1 : ℝ) = 0 ∨ Real.sqrt (acc.2.2 : ℝ) = 0 then .ok 0
    else .ok ((acc.1 : ℝ) / (Real.sqrt (acc.2.1 : ℝ) * Real.sqrt (acc.2.2 : ℝ)))

/-- Spec-side formulation: the mathematical dot product `dot(A,B)` of the
spec (`∑ i, A i * B i` over the index range of `A`). -/
noncomputable def specDot (A B : List ℚ) : ℝ :=
  ∑ i ∈ Finset.range A.length, (A.getD i 0 : ℝ) * (B.getD i 0 : ℝ)

/-- Spec-side formulation: the Euclidean norm `‖A‖ = √(∑ i, (A i)^2)`. -/
noncomputable def specNorm (A : List ℚ) : ℝ :=
  Real.sqrt (∑ i ∈ Finset.range A.length, (A.getD i 0 : ℝ) ^ 2)

/-- Recursive form of the dot product, bridging the fold to the sum. -/
def dotQ : List ℚ → List ℚ → ℚ
  | a :: as, b :: bs => a * b + dotQ as bs
  | _, _ => 0

/-- Recursive form of the sum of squares, bridging the fold to the sum. -/
def sumSqQ : List ℚ → ℚ
  | [] => 0
  | a :: as => a * a + sumSqQ as


/-- A color histogram: three parallel per-channel bucket sequences, as
built by `extractColorHistogram` (`{ r, g, b }`). -/
structure Histogram where
  r : List ℚ
  g : List ℚ
  b : List ℚ
deriving DecidableEq

open Classical in
/-- Function `calculateEnhancedSimilarity(features1, features2, histogram1,
histogram2)` from `src/server/imageProcessor.js` lines 205-222 (the variant
in `src/unnamed/part_000` lines 485-502 is textually identical): feature
cosine similarity weighted 0.8 plus color similarity weighted 0.2, where
the color similarity is the mean of the three per-channel cosine
similarities when both histograms are present and 0 otherwise. -/
noncomputable def calculateEnhancedSimilarity (features1 features2 : List ℚ)
    (histogram1 histogram2 : Option Histogram) : Except String ℝ := do
  let featureSimilarity ← cosineSimilarity features1 features2
  let colorSimilarity ←
    match histogram1, histogram2 with
    | some h1, some h2 => do
      let rSim ← cosineSimilarity h1.r h2.r
      let gSim ← cosineSimilarity h1.g h2.g
      let bSim ← cosineSimilarity h1.b h2.b
      pure ((rSim + gSim + bSim) / 3)
    | _, _ => pure (0 : ℝ)
  pure (featureSimilarity * 0.8 + colorSimilarity * 0.2)

/-- One bucket increment `histogram.c[v]++` of `extractColorHistogram`.
A read of a byte value always gives `v < 256`, so the in-range update is
the only case the code exercises on decoded pixel data. -/
def bucketInc (buckets : List Nat) (v : Nat) : List Nat :=
  buckets.set v (buckets.getD v 0 + 1)

/-- The scan loop of `extractColorHistogram` in
`src/server/imageProcessor.js` lines 185-189: `for (i = 0; i < data.length;
i += 3)` increment the `r` bucket at `data[i]`, the `g` bucket at
`data[i+1]` and the `b` bucket at `data[i+2]`. A read past the end of
`data` yields `undefined` in JavaScript and touches none of the 256
buckets, so the partial chunks increment only the channels whose index is
in range. -/
def histCounts : List Nat → List Nat × List Nat × List Nat
  | [] =>
    (List.replicate 256 0, List.replicate 256 0, List.replicate 256 0)
  | [x] =>
    (bucketInc (List.replicate 256 0) x, List.replicate 256 0,
      List.replicate 256 0)
  | [x, y] =>
    (bucketInc (List.replicate 256 0) x, bucketInc (List.replicate 256 0) y,
      List.replicate 256 0)
  | x :: y :: z :: rest =>
    let h := histCounts rest
    (bucketInc h.1 x, bucketInc h.2.1 y, bucketInc h.2.2 z)

/-- Function `extractColorHistogram` from `src/server/imageProcessor.js`
lines 172-204, after the sharp pipeline `.resize(100, 100).raw().toBuffer()` has
produced the raw buffer: `data` is the decoded byte buffer (of length
`info.width * info.height * channels` -- this variant, unlike the one in
`src/unnamed/part_000`, does not call `.removeAlpha()`, so `channels` is 4
for an image with an alpha channel), and `width`, `height` are
`info.width`, `info.height` (both 100 after the resize). Buckets are
normalized by `totalPixels = info.width * info.height`. -/
def extractColorHistogram (data : List Nat) (width height : Nat) :
    Histogram :=
  let h := histCounts data
  { r := h.1.map (fun n : Nat => (n : ℚ) / ((width * height : Nat) : ℚ)),
    g := h.2.1.map (fun n : Nat => (n : ℚ) / ((width * height : Nat) : ℚ)),
    b := h.2.2.map (fun n : Nat => (n : ℚ) / ((width * height : Nat) : ℚ)) }

/-- The catch-clause of `extractFeaturesFromUrl` in
`src/server/imageProcessor.js` lines 129-143, as the user-facing message it
surfaces: `ENOTFOUND` and `ECONNREFUSED` share one message, HTTP 404 has
its own, a message containing "timeout" has its own, and any other error
is rethrown unchanged (its original message propagates). -/
def urlErrorMessage (e : JsError) : String :=
  if e.code = some "ENOTFOUND" ∨ e.code = some "ECONNREFUSED" then
    "Unable to access the image URL. Please check the URL and try again."
  else if e.status = some 404 then
    "Image not found at the provided URL."
  else if "timeout".toList <:+: e.message.toList then
    "Request timeout. Please try with a different image URL."
  else
    e.message

end ImageProcessor

namespace ImageProcessor2

/-- One iteration of the `cosineSimilarity` loop of the `ImageProcessor`
variant in `src/unnamed/part_000` (lines 430-437): each element is read as
`vector[i] || 0`, so a missing (`undefined`) or null entry contributes 0. -/
def simStep (acc : ℚ × ℚ × ℚ) (xy : Option ℚ × Option ℚ) : ℚ × ℚ × ℚ :=
  (acc.1 + xy.1.getD 0 * xy.2.getD 0, acc.2.1 + xy.1.getD 0 * xy.1.getD 0,
    acc.2.2 + xy.2.getD 0 * xy.2.getD 0)

/-- The full accumulator loop of the `src/unnamed/part_000` variant. -/
def simAccum (ps : List (Option ℚ × Option ℚ)) : ℚ × ℚ × ℚ :=
  ps.foldl simStep (0, 0, 0)

open Classical in
/-- Function `cosineSimilarity(vectorA, vectorB)` of the `ImageProcessor`
variant in `src/unnamed/part_000` lines 417-447: returns 0 when either argument is
null/undefined (`if (!vectorA || !vectorB) return 0`), then throws on a
length mismatch, and accumulates with `vector[i] || 0` so missing entries
count as 0. -/
noncomputable def cosineSimilarity
    (vectorA vectorB : Option (List (Option ℚ))) : Except String ℝ :=
  match vectorA, vectorB with
  | none, _ => .ok 0
  | some _, none => .ok 0
  | some a, some b =>
    if a.length ≠ b.length then
      .error "Vectors must have the same length"
    else
      let acc := simAccum (a.zip b)
      if Real.sqrt (acc.2.1 : ℝ) = 0 ∨ Real.sqrt (acc.2.2 : ℝ) = 0 then .ok 0
      else
        .ok ((acc.1 : ℝ) /
          (Real.sqrt (acc.2.1 : ℝ) * Real.sqrt (acc.2.2 : ℝ)))

/-- The catch-clause of `extractFeaturesFromUrl` in `src/unnamed/part_000`
lines 388-413, as the user-facing message it surfaces: distinct messages
for host-unresolvable, connection-refused, HTTP 404, HTTP 403 and timeout;
an "Unsupported image format" error is rethrown unchanged; every other
error is wrapped in a catch-all naming the underlying cause. -/
def urlErrorMessage (e : JsError) : String :=
  if e.code = some "ENOTFOUND" then
    "Unable to resolve the image URL. Please check the URL."
  else if e.code = some "ECONNREFUSED" then
    "Connection refused. The server may be down."
  else if e.status = some 404 then
    "Image not found at the provided URL (404)."
  else if e.status = some 403 then
    "Access denied to the image URL (403)."
  else if e.code = some "ECONNABORTED" ∨ "timeout".toList <:+: e.message.toList then
    "Request timeout. Please try with a different image URL."
  else if "Unsupported image format".toList <:+: e.message.toList then
    e.message
  else
    "Failed to process image: " ++ e.message

end ImageProcessor2

namespace ProductService

/-- A catalog product record as stored under the `products:all` key by
`src/server/productService.js` (fields of every sample product and of
`addProduct` input). -/
structure Product where
  id : String
  name : String
  category : String
  price : ℚ
  description : String
  imageUrl : String
deriving DecidableEq

/-- A ranked search result: the spread product record
(`{ ...product, similarity, matchPercentage }`). -/
structure SearchResult where
  product : Product
  similarity : ℚ
  matchPercentage : ℤ
deriving DecidableEq

/-- The per-product feature cache (the `features:<id>` key family of the
Redis store), modelled as an association list where the most recent write
shadows earlier ones. -/
abbrev Cache := List (String × List ℚ)

/-- Read (`redis.get`) of a `features:<id>` key (`getProductFeatures`): the most
recently stored vector for the id, if any. -/
def cacheGet (c : Cache) (k : String) : Option (List ℚ) :=
  (c.find? (fun e => e.1 == k)).map (fun e => e.2)

/-- Write (`redis.set`) of a `features:<id>` key (`storeProductFeatures`). -/
def cacheSet (c : Cache) (k : String) (v : List ℚ) : Cache :=
  (k, v) :: c

/-- The whole persistent store: the `products:all` key (absent when never
written) and the per-product feature cache. -/
structure Store where
  products : Option (List Product)
  features : Cache
deriving DecidableEq

/-- The scorer the search loop calls
(`this.imageProcessor.cosineSimilarity(queryFeatures, productFeatures)`),
passed explicitly; a thrown error is `.error`. Scores are `ℚ` because every
JavaScript number is a rational. -/
abbrev SimFn := List ℚ → List ℚ → Except String ℚ

/-- The per-URL feature extractor the search loop calls on a cache miss
(`this.imageProcessor.extractFeaturesFromUrl(product.imageUrl)`), passed
explicitly; a failed fetch/extraction is `.error`. -/
abbrev ExtractFn := String → Except String (List ℚ)

/-- The 50 built-in sample products of `initializeSampleProducts`
(`src/server/productService.js` lines 154-629). -/
def sampleProducts : List Product := [
  ⟨"prod_1", "iPhone 15 Pro", "Electronics", 999, "Latest Apple smartphone with titanium design", "https://images.unsplash.com/photo-1592750475338-74b7b21085ab?w=500&h=500&fit=crop"⟩,
  ⟨"prod_2", "MacBook Air M2", "Electronics", 1199, "Thin and light laptop with Apple M2 chip", "https://images.unsplash.com/photo-1541807084-5c52b6b3adef?w=500&h=500&fit=crop"⟩,
  ⟨"prod_3", "AirPods Pro", "Electronics", 249, "Wireless earbuds with active noise cancellation", "https://images.unsplash.com/photo-1606220945770-b5b6c2c55bf1?w=500&h=500&fit=crop"⟩,
  ⟨"prod_4", "Samsung Galaxy S24", "Electronics", 899, "Android flagship with AI features", "https://images.unsplash.com/photo-1511707171634-5f897ff02aa9?w=500&h=500&fit=crop"⟩,
  ⟨"prod_5", "Dell XPS 13", "Electronics", 1099, "Premium ultrabook with InfinityEdge display", "https://images.unsplash.com/photo-1496181133206-80ce9b88a853?w=500&h=500&fit=crop"⟩,
  ⟨"prod_6", "Sony WH-1000XM5", "Electronics", 399, "Premium noise-canceling headphones", "https://images.unsplash.com/photo-1505740420928-5e560c06d30e?w=500&h=500&fit=crop"⟩,
  ⟨"prod_7", "iPad Pro 12.9\x22", "Electronics", 1099, "Professional tablet with M2 chip", "https://images.unsplash.com/photo-1544244015-0df4b3ffc6b0?w=500&h=500&fit=crop"⟩,
  ⟨"prod_8", "Nintendo Switch OLED", "Electronics", 349, "Portable gaming console with OLED screen", "https://images.unsplash.com/photo-1606144042614-b2417e99c4e3?w=500&h=500&fit=crop"⟩,
  ⟨"prod_9", "Canon EOS R5", "Electronics", 3899, "Professional mirrorless camera", "https://images.unsplash.com/photo-1606983340126-99ab4feaa64a?w=500&h=500&fit=crop"⟩,
  ⟨"prod_10", "Apple Watch Series 9", "Electronics", 399, "Advanced smartwatch with health monitoring", "https://images.unsplash.com/photo-1551816230-ef5deaed4a26?w=500&h=500&fit=crop"⟩,
  ⟨"prod_11", "Nike Air Jordan 1", "Fashion", 170, "Classic basketball sneakers", "https://images.unsplash.com/photo-1549298916-b41d501d3772?w=500&h=500&fit=crop"⟩,
  ⟨"prod_12", "Levi\x27s 501 Jeans", "Fashion", 98, "Classic straight-leg denim jeans", "https://images.unsplash.com/photo-1541099649105-f69ad21f3246?w=500&h=500&fit=crop"⟩,
  ⟨"prod_13", "Ray-Ban Aviator Sunglasses", "Fashion", 154, "Iconic pilot-style sunglasses", "https://images.unsplash.com/photo-1572635196237-14b3f281503f?w=500&h=500&fit=crop"⟩,
  ⟨"prod_14", "Adidas Ultraboost 23", "Fashion", 190, "High-performance running shoes", "https://images.unsplash.com/photo-1542291026-7eec264c27ff?w=500&h=500&fit=crop"⟩,
  ⟨"prod_15", "Champion Hoodie", "Fashion", 60, "Comfortable cotton-blend hoodie", "https://images.unsplash.com/photo-1556821840-3a63f95609a7?w=500&h=500&fit=crop"⟩,
  ⟨"prod_16", "Converse Chuck Taylor", "Fashion", 55, "Classic canvas sneakers", "https://images.unsplash.com/photo-1539185441755-769473a23570?w=500&h=500&fit=crop"⟩,
  ⟨"prod_17", "Leather Crossbody Bag", "Fashion", 89, "Minimalist leather bag for everyday use", "https://images.unsplash.com/photo-1553062407-98eeb64c6a62?w=500&h=500&fit=crop"⟩,
  ⟨"prod_18", "Casio G-Shock Watch", "Fashion", 99, "Durable digital sports watch", "https://images.unsplash.com/photo-1523275335684-37898b6baf30?w=500&h=500&fit=crop"⟩,
  ⟨"prod_19", "Winter Wool Coat", "Fashion", 199, "Elegant wool coat for cold weather", "https://images.unsplash.com/photo-1591047139829-d91aecb6caea?w=500&h=500&fit=crop"⟩,
  ⟨"prod_20", "Baseball Cap", "Fashion", 25, "Adjustable cotton baseball cap", "https://images.unsplash.com/photo-1575428652377-a2d80e2277fc?w=500&h=500&fit=crop"⟩,
  ⟨"prod_21", "Dyson V15 Vacuum", "Home", 749, "Cordless stick vacuum with laser detection", "https://images.unsplash.com/photo-1558618666-fcd25c85cd64?w=500&h=500&fit=crop"⟩,
  ⟨"prod_22", "KitchenAid Stand Mixer", "Home", 379, "Professional-grade stand mixer", "https://images.unsplash.com/photo-1586672806791-3a78b2232d52?w=500&h=500&fit=crop"⟩,
  ⟨"prod_23", "Instant Pot Pro", "Home", 149, "Multi-use pressure cooker", "https://images.unsplash.com/photo-1585515656161-638928ff60cc?w=500&h=500&fit=crop"⟩,
  ⟨"prod_24", "Velvet Throw Pillows", "Home", 35, "Set of luxury velvet decorative pillows", "https://images.unsplash.com/photo-1586023492125-27b2c045efd7?w=500&h=500&fit=crop"⟩,
  ⟨"prod_25", "Ceramic Coffee Mugs", "Home", 42, "Set of 4 handcrafted ceramic mugs", "https://images.unsplash.com/photo-1514228742587-6b1558fcf93a?w=500&h=500&fit=crop"⟩,
  ⟨"prod_26", "Area Rug 8x10", "Home", 299, "Modern geometric pattern area rug", "https://images.unsplash.com/photo-1586023492125-27b2c045efd7?w=500&h=500&fit=crop"⟩,
  ⟨"prod_27", "LED Desk Lamp", "Home", 79, "Adjustable LED desk lamp with USB charging", "https://images.unsplash.com/photo-1507003211169-0a1dd7228f2d?w=500&h=500&fit=crop"⟩,
  ⟨"prod_28", "Canvas Wall Art", "Home", 89, "Abstract canvas art for modern decor", "https://images.unsplash.com/photo-1513475382585-d06e58bcb0e0?w=500&h=500&fit=crop"⟩,
  ⟨"prod_29", "Bamboo Cutting Board", "Home", 45, "Eco-friendly bamboo cutting board set", "https://images.unsplash.com/photo-1556909114-f6e7ad7d3136?w=500&h=500&fit=crop"⟩,
  ⟨"prod_30", "Smart Thermostat", "Home", 249, "WiFi-enabled programmable thermostat", "https://images.unsplash.com/photo-1558618666-fcd25c85cd64?w=500&h=500&fit=crop"⟩,
  ⟨"prod_31", "Yoga Mat Premium", "Sports", 79, "Non-slip premium yoga mat", "https://images.unsplash.com/photo-1601925228692-b6f5ee82c1b4?w=500&h=500&fit=crop"⟩,
  ⟨"prod_32", "Dumbbells Set", "Sports", 199, "Adjustable dumbbells 5-50 lbs", "https://images.unsplash.com/photo-1571019613454-1cb2f99b2d8b?w=500&h=500&fit=crop"⟩,
  ⟨"prod_33", "Road Bike Helmet", "Sports", 89, "Lightweight cycling helmet with ventilation", "https://images.unsplash.com/photo-1558618047-3c8c76ca7d13?w=500&h=500&fit=crop"⟩,
  ⟨"prod_34", "Tennis Racket", "Sports", 129, "Professional tennis racket", "https://images.unsplash.com/photo-1551698618-1dfe5d97d256?w=500&h=500&fit=crop"⟩,
  ⟨"prod_35", "Resistance Bands", "Sports", 29, "Set of 5 resistance bands with handles", "https://images.unsplash.com/photo-1601925260368-ae2f83cf8b7f?w=500&h=500&fit=crop"⟩,
  ⟨"prod_36", "Basketball", "Sports", 39, "Official size outdoor basketball", "https://images.unsplash.com/photo-1546519638-68e109498ffc?w=500&h=500&fit=crop"⟩,
  ⟨"prod_37", "Fitness Tracker", "Sports", 99, "Waterproof fitness tracker with heart rate monitor", "https://images.unsplash.com/photo-1551698618-1dfe5d97d256?w=500&h=500&fit=crop"⟩,
  ⟨"prod_38", "Protein Shaker Bottle", "Sports", 15, "Leak-proof protein shaker with mixing ball", "https://images.unsplash.com/photo-1571019613454-1cb2f99b2d8b?w=500&h=500&fit=crop"⟩,
  ⟨"prod_39", "Soccer Ball", "Sports", 35, "FIFA-approved professional soccer ball", "https://images.unsplash.com/photo-1614632537190-23e4146777db?w=500&h=500&fit=crop"⟩,
  ⟨"prod_40", "Running Shoes", "Sports", 159, "Lightweight running shoes with cushioning", "https://images.unsplash.com/photo-1542291026-7eec264c27ff?w=500&h=500&fit=crop"⟩,
  ⟨"prod_41", "Skincare Set", "Beauty", 89, "Complete skincare routine set", "https://images.unsplash.com/photo-1556228720-195a672e8a03?w=500&h=500&fit=crop"⟩,
  ⟨"prod_42", "Hair Dryer Professional", "Beauty", 149, "Ionic hair dryer with multiple settings", "https://images.unsplash.com/photo-1522338242992-e1a54906a8da?w=500&h=500&fit=crop"⟩,
  ⟨"prod_43", "Makeup Brush Set", "Beauty", 59, "Professional makeup brush collection", "https://images.unsplash.com/photo-1596462502278-27bfdc403348?w=500&h=500&fit=crop"⟩,
  ⟨"prod_44", "Electric Toothbrush", "Beauty", 89, "Rechargeable electric toothbrush", "https://images.unsplash.com/photo-1609840114035-3c981b782dfe?w=500&h=500&fit=crop"⟩,
  ⟨"prod_45", "Perfume Collection", "Beauty", 129, "Set of 3 designer perfumes", "https://images.unsplash.com/photo-1541643600914-78b084683601?w=500&h=500&fit=crop"⟩,
  ⟨"prod_46", "Programming Books Set", "Books", 99, "Complete programming language guide books", "https://images.unsplash.com/photo-1481627834876-b7833e8f5570?w=500&h=500&fit=crop"⟩,
  ⟨"prod_47", "Kindle E-Reader", "Books", 139, "Waterproof e-reader with backlight", "https://images.unsplash.com/photo-1544716278-ca5e3f4abd8c?w=500&h=500&fit=crop"⟩,
  ⟨"prod_48", "Desk Organizer", "Books", 45, "Bamboo desk organizer with compartments", "https://images.unsplash.com/photo-1586953208448-b95a79798f07?w=500&h=500&fit=crop"⟩,
  ⟨"prod_49", "Car Phone Mount", "Automotive", 25, "Magnetic car phone holder", "https://images.unsplash.com/photo-1449965408869-eaa3f722e40d?w=500&h=500&fit=crop"⟩,
  ⟨"prod_50", "Car Dash Cam", "Automotive", 129, "4K dash camera with night vision", "https://images.unsplash.com/photo-1449965408869-eaa3f722e40d?w=500&h=500&fit=crop"⟩,
]

/-- Function `getAllProducts` (`src/server/productService.js` lines 26-39):
read the
`products:all` key; when the key is absent or holds an empty list, seed the
store with the sample catalog (`initializeSampleProducts` writes it under
the key) and return the freshly stored list. -/
def getAllProducts (st : Store) : List Product × Store :=
  match st.products with
  | none => (sampleProducts, ⟨some sampleProducts, st.features⟩)
  | some ps =>
    if ps.length = 0 then (sampleProducts, ⟨some sampleProducts, st.features⟩)
    else (ps, st)

/-- The per-product feature-obtaining step of `findSimilarProducts` (lines
89-107): a cache hit returns the cached vector; on a miss the product image
is fetched and embedded and the vector is stored under the product id; an
extraction failure yields `none` (the `continue` path), leaving the cache
unchanged. -/
def obtainFeatures (extractFn : ExtractFn) (p : Product) (c : Cache) :
    Option (List ℚ × Cache) :=
  match cacheGet c p.id with
  | some f => some (f, c)
  | none =>
    match extractFn p.imageUrl with
    | .ok f => some (f, cacheSet c p.id f)
    | .error _ => none

/-- The scan loop of `findSimilarProducts` (lines 87-129), threading the
feature cache: for each product obtain a feature vector (or skip), score it
against the query (a thrown scorer error is caught by the per-product
`catch` and the product is skipped), and keep a `SearchResult` with the
rounded similarity and integer match percentage when the raw score reaches
`minSimilarity`. -/
def searchLoop (simFn : SimFn) (extractFn : ExtractFn) (q : List ℚ)
    (minSim : ℚ) : List Product → Cache → List SearchResult × Cache
  | [], c => ([], c)
  | p :: ps, c =>
    match obtainFeatures extractFn p c with
    | none => searchLoop simFn extractFn q minSim ps c
    | some (f, c1) =>
      match simFn q f with
      | .error _ => searchLoop simFn extractFn q minSim ps c1
      | .ok s =>
        let rest := searchLoop simFn extractFn q minSim ps c1
        if minSim ≤ s then
          ({ product := p, similarity := round2 s,
             matchPercentage := jsRound (s * 100) } :: rest.1, rest.2)
        else rest

/-- The sort `similarities.sort((a, b) => b.similarity - a.similarity)`
(line 132):
the ECMAScript sort is stable, and under this comparator it orders by the
`similarity` field in non-increasing order -- a stable merge sort under the
total relation `b.similarity ≤ a.similarity`. -/
def sortResults (rs : List SearchResult) : List SearchResult :=
  rs.mergeSort (fun a b => decide (b.similarity ≤ a.similarity))

/-- The default of the `minSimilarity` parameter (line 78: 0.1). -/
def defaultMinSimilarity : ℚ := 1 / 10

/-- Function `findSimilarProducts(queryFeatures, minSimilarity = 0.1)`
(`src/server/productService.js` lines 78-140): fetch the catalog (seeding
it when empty), return `[]` for an empty catalog, otherwise run the scan
loop, sort the retained results by similarity descending and return the
first 20, together with the updated store. -/
def findSimilarProducts (simFn : SimFn) (extractFn : ExtractFn)
    (queryFeatures : List ℚ) (minSimilarity : ℚ) (st : Store) :
    List SearchResult × Store :=
  let pst := getAllProducts st
  if pst.1.length = 0 then ([], pst.2)
  else
    let rc :=
      searchLoop simFn extractFn queryFeatures minSimilarity pst.1
        pst.2.features
    ((sortResults rc.1).take 20, ⟨pst.2.products, rc.2⟩)

end ProductService

namespace ImageProcessor

theorem simAccum_shift (ps : List (ℚ × ℚ)) (acc : ℚ × ℚ × ℚ) :
    ps.foldl simStep acc =
      (acc.1 + (simAccum ps).1, acc.2.1 + (simAccum ps).2.1,
        acc.2.2 + (simAccum ps).2.2) := by
  induction ps generalizing acc with
  | nil => simp [simAccum]
  | cons p ps ih =>
    rw [List.foldl_cons, ih (simStep acc p),
      show simAccum (p :: ps) = List.foldl simStep (simStep (0, 0, 0) p) ps
        from rfl,
      ih (simStep (0, 0, 0) p)]
    simp only [simStep, Prod.mk.injEq]
    refine ⟨by ring, by ring, by ring⟩

theorem simAccum_cons (p : ℚ × ℚ) (ps : List (ℚ × ℚ)) :
    simAccum (p :: ps) =
      (p.1 * p.2 + (simAccum ps).1, p.1 * p.1 + (simAccum ps).2.1,
        p.2 * p.2 + (simAccum ps).2.2) := by
  rw [show simAccum (p :: ps) = List.foldl simStep (simStep (0, 0, 0) p) ps
      from rfl,
    simAccum_shift]
  simp [simStep]

theorem simAccum_zip (A B : List ℚ) (h : A.length = B.length) :
    simAccum (A.zip B) = (dotQ A B, sumSqQ A, sumSqQ B) := by
  induction A generalizing B with
  | nil =>
    cases B with
    | nil => simp [simAccum, dotQ, sumSqQ, simStep]
    | cons b bs => simp at h
  | cons a as ih =>
    cases B with
    | nil => simp at h
    | cons b bs =>
      have hlen : as.length = bs.length := by simpa using h
      rw [List.zip_cons_cons, simAccum_cons, ih bs hlen]
      simp [dotQ, sumSqQ]

theorem specDot_cons (a b : ℚ) (as bs : List ℚ) :
    specDot (a :: as) (b :: bs) = (a : ℝ) * b + specDot as bs := by
  simp only [specDot, List.length_cons, Finset.sum_range_succ',
    List.getD_cons_succ, List.getD_cons_zero]
  ring

theorem cast_dotQ (A B : List ℚ) (h : A.length = B.length) :
    (dotQ A B : ℝ) = specDot A B := by
  induction A generalizing B with
  | nil => simp [dotQ, specDot]
  | cons a as ih =>
    cases B with
    | nil => simp at h
    | cons b bs =>
      have hlen : as.length = bs.length := by simpa using h
      rw [specDot_cons, show dotQ (a :: as) (b :: bs) = a * b + dotQ as bs
          from rfl]
      push_cast
      rw [ih bs hlen]

theorem cast_sumSqQ (A : List ℚ) :
    (sumSqQ A : ℝ) = ∑ i ∈ Finset.range A.length, (A.getD i 0 : ℝ) ^ 2 := by
  induction A with
  | nil => simp [sumSqQ]
  | cons a as ih =>
    simp only [List.length_cons, Finset.sum_range_succ',
      List.getD_cons_succ, List.getD_cons_zero]
    rw [show sumSqQ (a :: as) = a * a + sumSqQ as from rfl]
    push_cast
    rw [ih]
    ring

theorem sqrt_sumSqQ_eq_specNorm (A : List ℚ) :
    Real.sqrt ((sumSqQ A : ℚ) : ℝ) = specNorm A := by
  rw [cast_sumSqQ, specNorm]


end ImageProcessor

open Classical in
/-- C4: for all vectors `A` and `B`, `cosineSimilarity` throws the
dimension-mismatch error exactly when the lengths differ, returns 0 when
either vector has zero norm, and otherwise equals
`dot(A,B) / (‖A‖ * ‖B‖)` with the Euclidean norm. -/
theorem cosineSimilarity_spec (A B : List ℚ) :
    ImageProcessor.cosineSimilarity A B =
      if A.length = B.length then
        if ImageProcessor.specNorm A = 0 ∨ ImageProcessor.specNorm B = 0 then
          .ok 0
        else
          .ok (ImageProcessor.specDot A B /
            (ImageProcessor.specNorm A * ImageProcessor.specNorm B))
      else .error "Vectors must have the same length" := by
  by_cases h : A.length = B.length
  · rw [if_pos h]
    unfold ImageProcessor.cosineSimilarity
    rw [if_neg (by simp [h])]
    simp only [ImageProcessor.simAccum_zip A B h]
    rw [ImageProcessor.sqrt_sumSqQ_eq_specNorm A,
      ImageProcessor.sqrt_sumSqQ_eq_specNorm B,
      ImageProcessor.cast_dotQ A B h]
  · rw [if_neg h]
    unfold ImageProcessor.cosineSimilarity
    rw [if_pos h]

namespace ImageProcessor2

theorem simAccum_eq_map (ps : List (Option ℚ × Option ℚ)) :
    simAccum ps =
      ImageProcessor.simAccum
        (ps.map (Prod.map (fun x => x.getD 0) (fun x => x.getD 0))) := by
  unfold simAccum ImageProcessor.simAccum
  rw [List.foldl_map]
  rfl

end ImageProcessor2

open Classical in
/-- C10: the `cosineSimilarity` of the `src/unnamed/part_000` variant
returns 0 (rather than throwing) whenever either argument is
null/undefined, and on two non-null vectors it behaves exactly like the
strict `cosineSimilarity` applied to the vectors with every
null/undefined/missing entry replaced by 0. -/
theorem cosineSimilarity_lenient_null_and_missing :
    (∀ B, ImageProcessor2.cosineSimilarity none B = .ok 0) ∧
    (∀ A, ImageProcessor2.cosineSimilarity A none = .ok 0) ∧
    (∀ A B, ImageProcessor2.cosineSimilarity (some A) (some B) =
      ImageProcessor.cosineSimilarity (A.map (fun x => x.getD 0))
        (B.map (fun x => x.getD 0))) := by
  refine ⟨fun B => rfl, fun A => ?_, fun A B => ?_⟩
  · cases A <;> rfl
  · have e2 : ImageProcessor2.cosineSimilarity (some A) (some B) =
        (if A.length ≠ B.length then
          .error "Vectors must have the same length"
        else
          let acc := ImageProcessor2.simAccum (A.zip B)
          if Real.sqrt (acc.2.1 : ℝ) = 0 ∨ Real.sqrt (acc.2.2 : ℝ) = 0 then
            .ok 0
          else
            .ok ((acc.1 : ℝ) /
              (Real.sqrt (acc.2.1 : ℝ) * Real.sqrt (acc.2.2 : ℝ)))) := rfl
    have e1 : ImageProcessor.cosineSimilarity (A.map (fun x => x.getD 0))
        (B.map (fun x => x.getD 0)) =
        (if (A.map (fun x => x.getD 0)).length ≠
            (B.map (fun x => x.getD 0)).length then
          .error "Vectors must have the same length"
        else
          let acc := ImageProcessor.simAccum
            ((A.map (fun x => x.getD 0)).zip (B.map (fun x => x.getD 0)))
          if Real.sqrt (acc.2.1 : ℝ) = 0 ∨ Real.sqrt (acc.2.2 : ℝ) = 0 then
            .ok 0
          else
            .ok ((acc.1 : ℝ) /
              (Real.sqrt (acc.2.1 : ℝ) * Real.sqrt (acc.2.2 : ℝ)))) := rfl
    rw [e2, e1, List.length_map, List.length_map, List.zip_map,
      ← ImageProcessor2.simAccum_eq_map]

theorem cos_single_one : ImageProcessor.cosineSimilarity [1] [1] = .ok 1 := by
  unfold ImageProcessor.cosineSimilarity
  rw [if_neg (by simp)]
  have hacc : ImageProcessor.simAccum ([(1 : ℚ)].zip [1]) = (1, 1, 1) := by
    rw [show [(1 : ℚ)].zip [1] = [((1 : ℚ), (1 : ℚ))] from rfl,
      ImageProcessor.simAccum_cons,
      show ImageProcessor.simAccum [] = (0, 0, 0) from rfl]
    norm_num
  rw [hacc]
  norm_num [Real.sqrt_one]

/-- C6: `calculateEnhancedSimilarity(f1, f2, h1, h2)` equals
`0.8 * cosineSimilarity(f1, f2) + 0.2 * colorSimilarity`, where
`colorSimilarity` is the unweighted mean of the three per-channel cosine
similarities when both histograms are present, and 0 when either histogram
is absent (so the result is `0.8 * cosineSimilarity(f1, f2)` there). -/
theorem calculateEnhancedSimilarity_spec :
    (∀ f1 f2 h2 s, ImageProcessor.cosineSimilarity f1 f2 = .ok s →
      ImageProcessor.calculateEnhancedSimilarity f1 f2 none h2 =
        .ok (0.8 * s)) ∧
    (∀ f1 f2 h1 s, ImageProcessor.cosineSimilarity f1 f2 = .ok s →
      ImageProcessor.calculateEnhancedSimilarity f1 f2 h1 none =
        .ok (0.8 * s)) ∧
    (∀ f1 f2 H1 H2 s r g b, ImageProcessor.cosineSimilarity f1 f2 = .ok s →
      ImageProcessor.cosineSimilarity H1.r H2.r = .ok r →
      ImageProcessor.cosineSimilarity H1.g H2.g = .ok g →
      ImageProcessor.cosineSimilarity H1.b H2.b = .ok b →
      ImageProcessor.calculateEnhancedSimilarity f1 f2 (some H1) (some H2) =
        .ok (0.8 * s + 0.2 * ((r + g + b) / 3))) := by
  refine ⟨?_, ?_, ?_⟩
  · intro f1 f2 h2 s hs
    have e : ImageProcessor.calculateEnhancedSimilarity f1 f2 none h2 =
        ((ImageProcessor.cosineSimilarity f1 f2).bind fun x =>
          Except.ok (x * 0.8 + 0 * 0.2)) := by
      cases h2 <;> rfl
    rw [e, hs]
    show Except.ok (s * 0.8 + 0 * 0.2) = _
    congr 1
    ring
  · intro f1 f2 h1 s hs
    have e : ImageProcessor.calculateEnhancedSimilarity f1 f2 h1 none =
        ((ImageProcessor.cosineSimilarity f1 f2).bind fun x =>
          Except.ok (x * 0.8 + 0 * 0.2)) := by
      cases h1 <;> rfl
    rw [e, hs]
    show Except.ok (s * 0.8 + 0 * 0.2) = _
    congr 1
    ring
  · intro f1 f2 H1 H2 s r g b hs hr hg hb
    have e : ImageProcessor.calculateEnhancedSimilarity f1 f2
        (some H1) (some H2) =
        ((ImageProcessor.cosineSimilarity f1 f2).bind fun x =>
          (ImageProcessor.cosineSimilarity H1.r H2.r).bind fun rS =>
          (ImageProcessor.cosineSimilarity H1.g H2.g).bind fun gS =>
          (ImageProcessor.cosineSimilarity H1.b H2.b).bind fun bS =>
          Except.ok (x * 0.8 + (rS + gS + bS) / 3 * 0.2)) := rfl
    rw [e, hs, hr, hg, hb]
    show Except.ok (s * 0.8 + (r + g + b) / 3 * 0.2) = _
    congr 1
    ring

/-- Witness for C6 at concrete inputs: singleton unit vectors and unit
histograms. -/
theorem calculateEnhancedSimilarity_spec_witness :
    ImageProcessor.calculateEnhancedSimilarity [1] [1] none none =
      .ok (0.8 * 1) ∧
    ImageProcessor.calculateEnhancedSimilarity [1] [1]
        (some ⟨[1], [1], [1]⟩) (some ⟨[1], [1], [1]⟩) =
      .ok (0.8 * 1 + 0.2 * ((1 + 1 + 1) / 3)) :=
  ⟨calculateEnhancedSimilarity_spec.1 [1] [1] none 1 cos_single_one,
   calculateEnhancedSimilarity_spec.2.2 [1] [1] ⟨[1], [1], [1]⟩
     ⟨[1], [1], [1]⟩ 1 1 1 1 cos_single_one cos_single_one cos_single_one
     cos_single_one⟩

/-- C7 counterexample: in the `src/server/imageProcessor.js` variant of
`extractFeaturesFromUrl`, a host-unresolvable error (`ENOTFOUND`) and a
connection-refused error (`ECONNREFUSED`) surface the SAME user-facing
message, and an HTTP 403 error has no dedicated message (the original
axios message propagates unchanged) -- contradicting the claim that those
kinds get distinct dedicated messages. -/
theorem urlErrorMessage_conflates_kinds :
    ImageProcessor.urlErrorMessage
        ⟨some "ENOTFOUND", none, "getaddrinfo ENOTFOUND example.com"⟩ =
      ImageProcessor.urlErrorMessage
        ⟨some "ECONNREFUSED", none,
          "connect ECONNREFUSED 93.184.216.34:443"⟩ ∧
    ImageProcessor.urlErrorMessage
        ⟨none, some 403, "Request failed with status code 403"⟩ =
      "Request failed with status code 403" := by
  constructor <;> decide

/-- C7 amended: in the `src/unnamed/part_000` variant of
`extractFeaturesFromUrl`, the six failure kinds (host unresolvable,
connection refused, HTTP 404, HTTP 403, timeout, unsupported/corrupt image
content) each surface their own distinct user-facing message and any other
cause is wrapped by a catch-all naming it; in the
`src/server/imageProcessor.js` variant, host-unresolvable and
connection-refused share one message and HTTP 403 has no dedicated
message. -/
theorem urlErrorMessage_taxonomy_by_variant :
    ImageProcessor2.urlErrorMessage
        ⟨some "ENOTFOUND", none, "getaddrinfo ENOTFOUND example.com"⟩ =
      "Unable to resolve the image URL. Please check the URL." ∧
    ImageProcessor2.urlErrorMessage
        ⟨some "ECONNREFUSED", none,
          "connect ECONNREFUSED 93.184.216.34:443"⟩ =
      "Connection refused. The server may be down." ∧
    ImageProcessor2.urlErrorMessage
        ⟨none, some 404, "Request failed with status code 404"⟩ =
      "Image not found at the provided URL (404)." ∧
    ImageProcessor2.urlErrorMessage
        ⟨none, some 403, "Request failed with status code 403"⟩ =
      "Access denied to the image URL (403)." ∧
    ImageProcessor2.urlErrorMessage
        ⟨some "ECONNABORTED", none, "timeout of 15000ms exceeded"⟩ =
      "Request timeout. Please try with a different image URL." ∧
    ImageProcessor2.urlErrorMessage
        ⟨none, none,
          "Unsupported image format. Please use JPEG, PNG, WebP, GIF, or TIFF."⟩ =
      "Unsupported image format. Please use JPEG, PNG, WebP, GIF, or TIFF." ∧
    ImageProcessor2.urlErrorMessage
        ⟨none, none, "Failed to extract image features"⟩ =
      "Failed to process image: Failed to extract image features" ∧
    List.Pairwise (fun a b => a ≠ b)
      [ImageProcessor2.urlErrorMessage
          ⟨some "ENOTFOUND", none, "getaddrinfo ENOTFOUND example.com"⟩,
        ImageProcessor2.urlErrorMessage
          ⟨some "ECONNREFUSED", none,
            "connect ECONNREFUSED 93.184.216.34:443"⟩,
        ImageProcessor2.urlErrorMessage
          ⟨none, some 404, "Request failed with status code 404"⟩,
        ImageProcessor2.urlErrorMessage
          ⟨none, some 403, "Request failed with status code 403"⟩,
        ImageProcessor2.urlErrorMessage
          ⟨some "ECONNABORTED", none, "timeout of 15000ms exceeded"⟩,
        ImageProcessor2.urlErrorMessage
          ⟨none, none,
            "Unsupported image format. Please use JPEG, PNG, WebP, GIF, or TIFF."⟩] ∧
    ImageProcessor.urlErrorMessage
        ⟨some "ENOTFOUND", none, "getaddrinfo ENOTFOUND example.com"⟩ =
      "Unable to access the image URL. Please check the URL and try again." ∧
    ImageProcessor.urlErrorMessage
        ⟨some "ECONNREFUSED", none,
          "connect ECONNREFUSED 93.184.216.34:443"⟩ =
      "Unable to access the image URL. Please check the URL and try again." := by
  refine ⟨?_, ?_, ?_, ?_, ?_, ?_, ?_, ?_, ?_, ?_⟩ <;> decide

namespace ImageProcessor

theorem bucketInc_length (l : List Nat) (v : Nat) :
    (bucketInc l v).length = l.length := by
  simp [bucketInc]

theorem bucketInc_sum (l : List Nat) (v : Nat) (h : v < l.length) :
    (bucketInc l v).sum = l.sum + 1 := by
  induction l generalizing v with
  | nil => simp at h
  | cons a l ih =>
    cases v with
    | zero =>
      simp [bucketInc]
      omega
    | succ v =>
      have hv : v < l.length := by simpa using h
      simp only [bucketInc, List.set_cons_succ, List.getD_cons_succ,
        List.sum_cons]
      have := ih v hv
      simp only [bucketInc] at this
      omega

theorem histCounts_nil :
    histCounts [] =
      (List.replicate 256 0, List.replicate 256 0, List.replicate 256 0) :=
  rfl

theorem histCounts_one (x : Nat) :
    histCounts [x] =
      (bucketInc (List.replicate 256 0) x, List.replicate 256 0,
        List.replicate 256 0) :=
  rfl

theorem histCounts_two (x y : Nat) :
    histCounts [x, y] =
      (bucketInc (List.replicate 256 0) x,
        bucketInc (List.replicate 256 0) y, List.replicate 256 0) :=
  rfl

theorem histCounts_cons3 (x y z : Nat) (rest : List Nat) :
    histCounts (x :: y :: z :: rest) =
      (bucketInc (histCounts rest).1 x, bucketInc (histCounts rest).2.1 y,
        bucketInc (histCounts rest).2.2 z) :=
  rfl

theorem histCounts_lengths (data : List Nat) :
    (histCounts data).1.length = 256 ∧ (histCounts data).2.1.length = 256 ∧
      (histCounts data).2.2.length = 256 := by
  induction data using histCounts.induct with
  | case1 =>
    rw [histCounts_nil]
    simp
  | case2 x =>
    rw [histCounts_one]
    simp [bucketInc_length]
  | case3 x y =>
    rw [histCounts_two]
    simp [bucketInc_length]
  | case4 x y z rest ih =>
    rw [histCounts_cons3]
    simp [bucketInc_length, ih.1, ih.2.1, ih.2.2]

theorem histCounts_sums (data : List Nat) :
    (∀ v ∈ data, v < 256) →
    (histCounts data).1.sum = (data.length + 2) / 3 ∧
    (histCounts data).2.1.sum = (data.length + 1) / 3 ∧
    (histCounts data).2.2.sum = data.length / 3 := by
  induction data using histCounts.induct with
  | case1 =>
    intro _
    rw [histCounts_nil]
    simp
  | case2 x =>
    intro hv
    have hx : x < (List.replicate 256 (0 : Nat)).length := by
      simpa using hv x (by simp)
    rw [histCounts_one]
    refine ⟨?_, by simp, by simp⟩
    rw [show (bucketInc (List.replicate 256 0) x, List.replicate 256 0,
        (List.replicate 256 0 : List Nat)).1 =
        bucketInc (List.replicate 256 0) x from rfl,
      bucketInc_sum _ _ hx]
    simp
  | case3 x y =>
    intro hv
    have hx : x < (List.replicate 256 (0 : Nat)).length := by
      simpa using hv x (by simp)
    have hy : y < (List.replicate 256 (0 : Nat)).length := by
      simpa using hv y (by simp)
    rw [histCounts_two]
    refine ⟨?_, ?_, by simp⟩
    · rw [show (bucketInc (List.replicate 256 0) x,
          bucketInc (List.replicate 256 0) y,
          (List.replicate 256 0 : List Nat)).1 =
          bucketInc (List.replicate 256 0) x from rfl,
        bucketInc_sum _ _ hx]
      simp
    · rw [show (bucketInc (List.replicate 256 0) x,
          bucketInc (List.replicate 256 0) y,
          (List.replicate 256 0 : List Nat)).2.1 =
          bucketInc (List.replicate 256 0) y from rfl,
        bucketInc_sum _ _ hy]
      simp
  | case4 x y z rest ih =>
    intro hv
    have hrest : ∀ v ∈ rest, v < 256 := fun v hv' => hv v (by simp [hv'])
    obtain ⟨ihr, ihg, ihb⟩ := ih hrest
    have hlen := histCounts_lengths rest
    have hx : x < (histCounts rest).1.length := by
      rw [hlen.1]
      exact hv x (by simp)
    have hy : y < (histCounts rest).2.1.length := by
      rw [hlen.2.1]
      exact hv y (by simp)
    have hz : z < (histCounts rest).2.2.length := by
      rw [hlen.2.2]
      exact hv z (by simp)
    rw [histCounts_cons3]
    refine ⟨?_, ?_, ?_⟩
    · rw [show (bucketInc (histCounts rest).1 x,
          bucketInc (histCounts rest).2.1 y,
          bucketInc (histCounts rest).2.2 z).1 =
          bucketInc (histCounts rest).1 x from rfl,
        bucketInc_sum _ _ hx, ihr]
      simp only [List.length_cons]
      omega
    · rw [show (bucketInc (histCounts rest).1 x,
          bucketInc (histCounts rest).2.1 y,
          bucketInc (histCounts rest).2.2 z).2.1 =
          bucketInc (histCounts rest).2.1 y from rfl,
        bucketInc_sum _ _ hy, ihg]
      simp only [List.length_cons]
      omega
    · rw [show (bucketInc (histCounts rest).1 x,
          bucketInc (histCounts rest).2.1 y,
          bucketInc (histCounts rest).2.2 z).2.2 =
          bucketInc (histCounts rest).2.2 z from rfl,
        bucketInc_sum _ _ hz, ihb]
      simp only [List.length_cons]
      omega

theorem sum_map_div (l : List Nat) (c : ℚ) :
    (l.map (fun n : Nat => (n : ℚ) / c)).sum = (l.sum : ℚ) / c := by
  induction l with
  | nil => simp
  | cons a l ih =>
    simp only [List.map_cons, List.sum_cons, ih]
    push_cast
    rw [add_div]

theorem extractColorHistogram_r_eq (data : List Nat) (width height : Nat) :
    (extractColorHistogram data width height).r =
      (histCounts data).1.map
        (fun n : Nat => (n : ℚ) / ((width * height : Nat) : ℚ)) :=
  rfl

theorem extractColorHistogram_g_eq (data : List Nat) (width height : Nat) :
    (extractColorHistogram data width height).g =
      (histCounts data).2.1.map
        (fun n : Nat => (n : ℚ) / ((width * height : Nat) : ℚ)) :=
  rfl

theorem extractColorHistogram_b_eq (data : List Nat) (width height : Nat) :
    (extractColorHistogram data width height).b =
      (histCounts data).2.2.map
        (fun n : Nat => (n : ℚ) / ((width * height : Nat) : ℚ)) :=
  rfl

end ImageProcessor

/-- C5 (failing evaluation): `extractColorHistogram` in
`src/server/imageProcessor.js` takes the sharp raw buffer WITHOUT
`.removeAlpha()`, so an image with an alpha channel decodes to a
100x100x4 = 40000-byte buffer; scanning it with stride 3 makes the red
channel's buckets sum to 13334/10000 ≠ 1, contradicting the claim that the
buckets of every successfully decoded image sum to 1. (The bucket count of
256 per channel does hold.) -/
theorem extractColorHistogram_alpha_failing_eval :
    (ImageProcessor.extractColorHistogram
        (List.replicate 40000 0) 100 100).r.length = 256 ∧
    (ImageProcessor.extractColorHistogram
        (List.replicate 40000 0) 100 100).r.sum = 13334 / 10000 ∧
    ((13334 : ℚ) / 10000) ≠ 1 := by
  have hv : ∀ v ∈ List.replicate 40000 (0 : Nat), v < 256 := by
    intro v hv'
    rw [List.eq_of_mem_replicate hv']
    norm_num
  have hsums := ImageProcessor.histCounts_sums (List.replicate 40000 0) hv
  have hlens := ImageProcessor.histCounts_lengths (List.replicate 40000 0)
  have hr := ImageProcessor.extractColorHistogram_r_eq
    (List.replicate 40000 0) 100 100
  refine ⟨?_, ?_, by norm_num⟩
  · rw [hr, List.length_map, hlens.1]
  · rw [hr, ImageProcessor.sum_map_div, hsums.1, List.length_replicate]
    norm_num

/-- Supporting fact for C5: on a 3-channel raw buffer (what the code
assumes, and what the `src/unnamed/part_000` variant guarantees via
`.removeAlpha()`), every channel's buckets do sum to 1. -/
theorem extractColorHistogram_three_channel_sums (data : List Nat)
    (w h : Nat) (hwh : 0 < w * h) (hlen : data.length = 3 * (w * h))
    (hv : ∀ v ∈ data, v < 256) :
    (ImageProcessor.extractColorHistogram data w h).r.sum = 1 ∧
    (ImageProcessor.extractColorHistogram data w h).g.sum = 1 ∧
    (ImageProcessor.extractColorHistogram data w h).b.sum = 1 := by
  obtain ⟨ihr, ihg, ihb⟩ := ImageProcessor.histCounts_sums data hv
  have hwh' : (((w * h : Nat) : ℚ)) ≠ 0 := by
    exact_mod_cast Nat.pos_iff_ne_zero.mp hwh
  have hr : (ImageProcessor.histCounts data).1.sum = w * h := by
    rw [ihr, hlen]
    omega
  have hg : (ImageProcessor.histCounts data).2.1.sum = w * h := by
    rw [ihg, hlen]
    omega
  have hb : (ImageProcessor.histCounts data).2.2.sum = w * h := by
    rw [ihb, hlen]
    omega
  refine ⟨?_, ?_, ?_⟩
  · rw [ImageProcessor.extractColorHistogram_r_eq,
      ImageProcessor.sum_map_div, hr]
    exact div_self hwh'
  · rw [ImageProcessor.extractColorHistogram_g_eq,
      ImageProcessor.sum_map_div, hg]
    exact div_self hwh'
  · rw [ImageProcessor.extractColorHistogram_b_eq,
      ImageProcessor.sum_map_div, hb]
    exact div_self hwh'

namespace ProductService

theorem cacheGet_set_ne (c : Cache) (k k' : String) (v : List ℚ)
    (h : k ≠ k') : cacheGet (cacheSet c k v) k' = cacheGet c k' := by
  unfold cacheGet cacheSet
  rw [List.find?_cons_of_neg]
  simp [h]

theorem searchLoop_mem (simFn : SimFn) (extractFn : ExtractFn) (q : List ℚ)
    (m : ℚ) :
    ∀ (ps : List Product) (c : Cache) (r : SearchResult),
      r ∈ (searchLoop simFn extractFn q m ps c).1 →
      r.product ∈ ps ∧ ∃ f s, simFn q f = .ok s ∧ m ≤ s ∧
        r.similarity = round2 s ∧ r.matchPercentage = jsRound (s * 100) := by
  intro ps
  induction ps with
  | nil =>
    intro c r hr
    simp [searchLoop] at hr
  | cons p ps ih =>
    intro c r hr
    simp only [searchLoop] at hr
    cases hof : obtainFeatures extractFn p c with
    | none =>
      rw [hof] at hr
      simp only [] at hr
      obtain ⟨hmem, hrest⟩ := ih c r hr
      exact ⟨List.mem_cons_of_mem p hmem, hrest⟩
    | some fc1 =>
      obtain ⟨f, c1⟩ := fc1
      rw [hof] at hr
      simp only [] at hr
      cases hsim : simFn q f with
      | error e =>
        rw [hsim] at hr
        simp only [] at hr
        obtain ⟨hmem, hrest⟩ := ih c1 r hr
        exact ⟨List.mem_cons_of_mem p hmem, hrest⟩
      | ok s =>
        rw [hsim] at hr
        simp only [] at hr
        by_cases hms : m ≤ s
        · rw [if_pos hms] at hr
          simp only [List.mem_cons] at hr
          rcases hr with hr | hr
          · subst hr
            exact ⟨List.mem_cons_self p ps,
              ⟨f, s, hsim, hms, rfl, rfl⟩⟩
          · obtain ⟨hmem, hrest⟩ := ih c1 r hr
            exact ⟨List.mem_cons_of_mem p hmem, hrest⟩
        · rw [if_neg hms] at hr
          obtain ⟨hmem, hrest⟩ := ih c1 r hr
          exact ⟨List.mem_cons_of_mem p hmem, hrest⟩

theorem sortResults_sorted (rs : List SearchResult) :
    List.Pairwise (fun a b : SearchResult => b.similarity ≤ a.similarity)
      (sortResults rs) := by
  have h := @List.sorted_mergeSort SearchResult
    (fun a b : SearchResult => decide (b.similarity ≤ a.similarity))
    (fun a b c hab hbc => by
      simp only [decide_eq_true_eq] at *
      exact le_trans hbc hab)
    (fun a b => by
      simp only [Bool.or_eq_true, decide_eq_true_eq]
      exact le_total b.similarity a.similarity)
    rs
  exact h.imp (fun hab => of_decide_eq_true hab)

theorem mem_sortResults (r : SearchResult) (rs : List SearchResult) :
    r ∈ sortResults rs ↔ r ∈ rs :=
  (List.mergeSort_perm rs _).mem_iff

theorem searchLoop_cacheGet_none (simFn : SimFn) (extractFn : ExtractFn)
    (q : List ℚ) (m : ℚ) (k : String) :
    ∀ (ps : List Product) (c : Cache), (∀ p ∈ ps, p.id ≠ k) →
      cacheGet c k = none →
      cacheGet (searchLoop simFn extractFn q m ps c).2 k = none := by
  intro ps
  induction ps with
  | nil =>
    intro c _ hmiss
    simpa [searchLoop] using hmiss
  | cons p ps ih =>
    intro c hids hmiss
    have hids' : ∀ p' ∈ ps, p'.id ≠ k :=
      fun p' hp' => hids p' (List.mem_cons_of_mem p hp')
    cases hcg : cacheGet c p.id with
    | some f =>
      simp only [searchLoop, obtainFeatures, hcg]
      cases hsim : simFn q f with
      | error e => exact ih c hids' hmiss
      | ok s =>
        by_cases hms : m ≤ s
        · simp only [if_pos hms]
          exact ih c hids' hmiss
        · simp only [if_neg hms]
          exact ih c hids' hmiss
    | none =>
      cases hex : extractFn p.imageUrl with
      | error e =>
        simp only [searchLoop, obtainFeatures, hcg, hex]
        exact ih c hids' hmiss
      | ok f =>
        have hmiss1 : cacheGet (cacheSet c p.id f) k = none := by
          rw [cacheGet_set_ne c p.id k f (hids p (List.mem_cons_self p ps))]
          exact hmiss
        simp only [searchLoop, obtainFeatures, hcg, hex]
        cases hsim : simFn q f with
        | error e => exact ih _ hids' hmiss1
        | ok s =>
          by_cases hms : m ≤ s
          · simp only [if_pos hms]
            exact ih _ hids' hmiss1
          · simp only [if_neg hms]
            exact ih _ hids' hmiss1

theorem searchLoop_skip (simFn : SimFn) (extractFn : ExtractFn) (q : List ℚ)
    (m : ℚ) (bad : Product) (msg : String) (ps2 : List Product)
    (hext : extractFn bad.imageUrl = .error msg) :
    ∀ (ps1 : List Product) (c : Cache), (∀ p ∈ ps1, p.id ≠ bad.id) →
      cacheGet c bad.id = none →
      searchLoop simFn extractFn q m (ps1 ++ bad :: ps2) c =
        searchLoop simFn extractFn q m (ps1 ++ ps2) c := by
  intro ps1
  induction ps1 with
  | nil =>
    intro c _ hmiss
    simp only [List.nil_append]
    simp only [searchLoop, obtainFeatures, hmiss, hext]
  | cons p ps1 ih =>
    intro c hids hmiss
    have hids' : ∀ p' ∈ ps1, p'.id ≠ bad.id :=
      fun p' hp' => hids p' (List.mem_cons_of_mem p hp')
    simp only [List.cons_append]
    cases hcg : cacheGet c p.id with
    | some f =>
      simp only [searchLoop, obtainFeatures, hcg]
      cases hsim : simFn q f with
      | error e => exact ih c hids' hmiss
      | ok s =>
        rw [ih c hids' hmiss]
    | none =>
      cases hex2 : extractFn p.imageUrl with
      | error e =>
        simp only [searchLoop, obtainFeatures, hcg, hex2]
        exact ih c hids' hmiss
      | ok f =>
        have hmiss1 : cacheGet (cacheSet c p.id f) bad.id = none := by
          rw [cacheGet_set_ne c p.id bad.id f
            (hids p (List.mem_cons_self p ps1))]
          exact hmiss
        simp only [searchLoop, obtainFeatures, hcg, hex2]
        cases hsim : simFn q f with
        | error e => exact ih _ hids' hmiss1
        | ok s =>
          rw [ih _ hids' hmiss1]

theorem searchLoop_warm (simFn : SimFn) (extractFn : ExtractFn) (q : List ℚ)
    (m : ℚ) :
    ∀ (ps : List Product) (c : Cache),
      (∀ p ∈ ps, (cacheGet c p.id).isSome) →
      (searchLoop simFn extractFn q m ps c).2 = c := by
  intro ps
  induction ps with
  | nil =>
    intro c _
    simp [searchLoop]
  | cons p ps ih =>
    intro c hwarm
    obtain ⟨f, hcg⟩ := Option.isSome_iff_exists.mp
      (hwarm p (List.mem_cons_self p ps))
    have hwarm' : ∀ p' ∈ ps, (cacheGet c p'.id).isSome :=
      fun p' hp' => hwarm p' (List.mem_cons_of_mem p hp')
    simp only [searchLoop, obtainFeatures, hcg]
    cases hsim : simFn q f with
    | error e => exact ih c hwarm'
    | ok s =>
      by_cases hms : m ≤ s
      · simp only [if_pos hms]
        exact ih c hwarm'
      · simp only [if_neg hms]
        exact ih c hwarm'

end ProductService

open ProductService in
/-- C1: for every query vector and every `minSimilarity`,
`findSimilarProducts` returns at most 20 results, and every returned
result comes from a raw similarity score `s` with `s ≥ minSimilarity`,
carries `similarity = Math.round(s * 100) / 100` and
`matchPercentage = Math.round(s * 100)`. -/
theorem findSimilarProducts_bounded_and_filtered (simFn : SimFn)
    (extractFn : ExtractFn) (q : List ℚ) (m : ℚ) (st : Store) :
    (findSimilarProducts simFn extractFn q m st).1.length ≤ 20 ∧
    ∀ r ∈ (findSimilarProducts simFn extractFn q m st).1,
      ∃ f s, simFn q f = .ok s ∧ m ≤ s ∧ r.similarity = round2 s ∧
        r.matchPercentage = jsRound (s * 100) := by
  by_cases h : (getAllProducts st).1.length = 0
  · have h' := List.length_eq_zero.mp h
    simp [findSimilarProducts, h']
  · simp only [findSimilarProducts, if_neg h]
    constructor
    · exact List.length_take_le 20 _
    · intro r hr
      have hr1 : r ∈ sortResults (searchLoop simFn extractFn q m
          (getAllProducts st).1 (getAllProducts st).2.features).1 :=
        List.mem_of_mem_take hr
      have hr2 := (mem_sortResults r _).mp hr1
      exact (searchLoop_mem simFn extractFn q m _ _ r hr2).2

open ProductService in
/-- Witness for C1: a one-product warm store, a scorer returning 1/2 and
`minSimilarity = 1/10`; the single returned result satisfies the bound
and carries the rounded fields. -/
theorem findSimilarProducts_bounded_and_filtered_witness :
    (findSimilarProducts (fun _ _ => .ok (1 / 2)) (fun _ => .error "fail")
        [] (1 / 10)
        ⟨some [⟨"p1", "n", "c", 1, "d", "u"⟩], [("p1", [])]⟩).1.length ≤ 20 ∧
    ∃ f s, ((fun _ _ => .ok (1 / 2) : SimFn)) [] f = .ok s ∧
      (1 / 10 : ℚ) ≤ s ∧
      (⟨⟨"p1", "n", "c", 1, "d", "u"⟩, 1 / 2, 50⟩ :
        SearchResult).similarity = round2 s ∧
      (⟨⟨"p1", "n", "c", 1, "d", "u"⟩, 1 / 2, 50⟩ :
        SearchResult).matchPercentage = jsRound (s * 100) := by
  have hmem : (⟨⟨"p1", "n", "c", 1, "d", "u"⟩, 1 / 2, 50⟩ : SearchResult) ∈
      (findSimilarProducts (fun _ _ => .ok (1 / 2)) (fun _ => .error "fail")
        [] (1 / 10)
        ⟨some [⟨"p1", "n", "c", 1, "d", "u"⟩], [("p1", [])]⟩).1 := by
    have hres : (findSimilarProducts (fun _ _ => .ok (1 / 2))
        (fun _ => .error "fail") [] (1 / 10)
        ⟨some [⟨"p1", "n", "c", 1, "d", "u"⟩], [("p1", [])]⟩).1 =
        [⟨⟨"p1", "n", "c", 1, "d", "u"⟩, 1 / 2, 50⟩] := by
      norm_num [findSimilarProducts, getAllProducts, searchLoop,
        obtainFeatures, cacheGet, sortResults, List.mergeSort, round2,
        jsRound, Int.floor_eq_iff]
    rw [hres]
    exact List.mem_cons_self _ _
  exact ⟨(findSimilarProducts_bounded_and_filtered _ _ _ _ _).1,
    (findSimilarProducts_bounded_and_filtered _ _ _ _ _).2 _ hmem⟩

open ProductService in
/-- C2: the sequence returned by `findSimilarProducts` is sorted in
non-increasing order of the `similarity` field. -/
theorem findSimilarProducts_sorted (simFn : SimFn) (extractFn : ExtractFn)
    (q : List ℚ) (m : ℚ) (st : Store) :
    List.Pairwise (fun a b : SearchResult => b.similarity ≤ a.similarity)
      (findSimilarProducts simFn extractFn q m st).1 := by
  by_cases h : (getAllProducts st).1.length = 0
  · have h' := List.length_eq_zero.mp h
    simp [findSimilarProducts, h']
  · simp only [findSimilarProducts, if_neg h]
    exact List.Pairwise.sublist (List.take_sublist _ _)
      (sortResults_sorted _)

open ProductService in
/-- C3: a product whose features are neither cached nor extractable (its
fetch/extraction throws) is skipped: the ranked results and the final
feature cache are the same as for the corpus without it, no error escapes
(the model is total), and the failing product is absent from the
results. -/
theorem findSimilarProducts_skips_failing_product (simFn : SimFn)
    (extractFn : ExtractFn) (q : List ℚ) (m : ℚ)
    (ps1 ps2 : List Product) (bad : Product) (fc : Cache) (msg : String)
    (hne : ps1 ++ ps2 ≠ [])
    (hmiss : cacheGet fc bad.id = none)
    (hext : extractFn bad.imageUrl = .error msg)
    (hids : ∀ p ∈ ps1 ++ ps2, p.id ≠ bad.id) :
    (findSimilarProducts simFn extractFn q m
        ⟨some (ps1 ++ bad :: ps2), fc⟩).1 =
      (findSimilarProducts simFn extractFn q m
        ⟨some (ps1 ++ ps2), fc⟩).1 ∧
    (findSimilarProducts simFn extractFn q m
        ⟨some (ps1 ++ bad :: ps2), fc⟩).2.features =
      (findSimilarProducts simFn extractFn q m
        ⟨some (ps1 ++ ps2), fc⟩).2.features ∧
    bad.id ∉ (findSimilarProducts simFn extractFn q m
        ⟨some (ps1 ++ bad :: ps2), fc⟩).1.map (fun r => r.product.id) := by
  have hids1 : ∀ p ∈ ps1, p.id ≠ bad.id :=
    fun p hp => hids p (List.mem_append_left _ hp)
  have hloop := searchLoop_skip simFn extractFn q m bad msg ps2 hext ps1 fc
    hids1 hmiss
  have hlen1 : ¬ (ps1 ++ bad :: ps2).length = 0 := by
    simp
  have hlen2 : ¬ (ps1 ++ ps2).length = 0 := by
    simpa [List.length_eq_zero] using hne
  have e1 : findSimilarProducts simFn extractFn q m
      ⟨some (ps1 ++ bad :: ps2), fc⟩ =
      ((sortResults (searchLoop simFn extractFn q m
          (ps1 ++ bad :: ps2) fc).1).take 20,
        ⟨some (ps1 ++ bad :: ps2),
          (searchLoop simFn extractFn q m (ps1 ++ bad :: ps2) fc).2⟩) := by
    simp only [findSimilarProducts, getAllProducts, if_neg hlen1]
  have e2 : findSimilarProducts simFn extractFn q m
      ⟨some (ps1 ++ ps2), fc⟩ =
      ((sortResults (searchLoop simFn extractFn q m
          (ps1 ++ ps2) fc).1).take 20,
        ⟨some (ps1 ++ ps2),
          (searchLoop simFn extractFn q m (ps1 ++ ps2) fc).2⟩) := by
    simp only [findSimilarProducts, getAllProducts, if_neg hlen2]
  refine ⟨?_, ?_, ?_⟩
  · rw [e1, e2, hloop]
  · rw [e1, e2, hloop]
  · rw [e1]
    intro hmem
    simp only [List.mem_map] at hmem
    obtain ⟨r, hr, hrid⟩ := hmem
    have hr1 : r ∈ sortResults (searchLoop simFn extractFn q m
        (ps1 ++ bad :: ps2) fc).1 := List.mem_of_mem_take hr
    rw [hloop] at hr1
    have hr2 := (mem_sortResults r _).mp hr1
    have hprod := (searchLoop_mem simFn extractFn q m _ _ r hr2).1
    exact hids r.product hprod hrid

open ProductService in
/-- Witness for C3: one good cached product and one bad product whose
extraction fails; the results of the two-product corpus equal those of
the one-product corpus and the bad id is absent. -/
theorem findSimilarProducts_skips_failing_product_witness :
    (findSimilarProducts (fun _ _ => .ok (1 / 2)) (fun _ => .error "fail")
        [] (1 / 10)
        ⟨some ([⟨"p1", "n", "c", 1, "d", "u"⟩] ++
          ⟨"bad", "n", "c", 1, "d", "ubad"⟩ :: []), [("p1", [])]⟩).1 =
      (findSimilarProducts (fun _ _ => .ok (1 / 2)) (fun _ => .error "fail")
        [] (1 / 10)
        ⟨some ([⟨"p1", "n", "c", 1, "d", "u"⟩] ++ []), [("p1", [])]⟩).1 ∧
    (findSimilarProducts (fun _ _ => .ok (1 / 2)) (fun _ => .error "fail")
        [] (1 / 10)
        ⟨some ([⟨"p1", "n", "c", 1, "d", "u"⟩] ++
          ⟨"bad", "n", "c", 1, "d", "ubad"⟩ :: []), [("p1", [])]⟩).2.features =
      (findSimilarProducts (fun _ _ => .ok (1 / 2)) (fun _ => .error "fail")
        [] (1 / 10)
        ⟨some ([⟨"p1", "n", "c", 1, "d", "u"⟩] ++ []), [("p1", [])]⟩).2.features ∧
    "bad" ∉ (findSimilarProducts (fun _ _ => .ok (1 / 2))
        (fun _ => .error "fail") [] (1 / 10)
        ⟨some ([⟨"p1", "n", "c", 1, "d", "u"⟩] ++
          ⟨"bad", "n", "c", 1, "d", "ubad"⟩ :: []), [("p1", [])]⟩).1.map
        (fun r => r.product.id) :=
  findSimilarProducts_skips_failing_product (fun _ _ => .ok (1 / 2))
    (fun _ => .error "fail") [] (1 / 10) [⟨"p1", "n", "c", 1, "d", "u"⟩] []
    ⟨"bad", "n", "c", 1, "d", "ubad"⟩ [("p1", [])] "fail" (by decide)
    (by decide) rfl (by decide)

open ProductService in
/-- C8: over a warm cache (every product's feature vector already cached)
`findSimilarProducts` does not modify the store, and a repeated call with
the same inputs returns the identical ranked output. -/
theorem findSimilarProducts_warm_cache_deterministic (simFn : SimFn)
    (extractFn : ExtractFn) (q : List ℚ) (m : ℚ) (ps : List Product)
    (fc : Cache) (hne : ps ≠ [])
    (hwarm : ∀ p ∈ ps, (cacheGet fc p.id).isSome) :
    (findSimilarProducts simFn extractFn q m ⟨some ps, fc⟩).2 =
      ⟨some ps, fc⟩ ∧
    findSimilarProducts simFn extractFn q m
        ((findSimilarProducts simFn extractFn q m ⟨some ps, fc⟩).2) =
      findSimilarProducts simFn extractFn q m ⟨some ps, fc⟩ := by
  have hlen : ¬ ps.length = 0 := by
    simpa [List.length_eq_zero] using hne
  have h2 : (findSimilarProducts simFn extractFn q m ⟨some ps, fc⟩).2 =
      ⟨some ps, fc⟩ := by
    simp only [findSimilarProducts, getAllProducts, if_neg hlen]
    rw [searchLoop_warm simFn extractFn q m ps fc hwarm]
  exact ⟨h2, by rw [h2]⟩

open ProductService in
/-- Witness for C8: a single-product warm store. -/
theorem findSimilarProducts_warm_cache_deterministic_witness :
    (findSimilarProducts (fun _ _ => .ok (1 / 2)) (fun _ => .error "fail")
        [] (1 / 10)
        ⟨some [⟨"p1", "n", "c", 1, "d", "u"⟩], [("p1", [])]⟩).2 =
      ⟨some [⟨"p1", "n", "c", 1, "d", "u"⟩], [("p1", [])]⟩ ∧
    findSimilarProducts (fun _ _ => .ok (1 / 2)) (fun _ => .error "fail")
        [] (1 / 10)
        ((findSimilarProducts (fun _ _ => .ok (1 / 2))
          (fun _ => .error "fail") [] (1 / 10)
          ⟨some [⟨"p1", "n", "c", 1, "d", "u"⟩], [("p1", [])]⟩).2) =
      findSimilarProducts (fun _ _ => .ok (1 / 2)) (fun _ => .error "fail")
        [] (1 / 10)
        ⟨some [⟨"p1", "n", "c", 1, "d", "u"⟩], [("p1", [])]⟩ :=
  findSimilarProducts_warm_cache_deterministic (fun _ _ => .ok (1 / 2))
    (fun _ => .error "fail") [] (1 / 10) [⟨"p1", "n", "c", 1, "d", "u"⟩]
    [("p1", [])] (by decide) (by decide)

open ProductService in
/-- C9: when the persistent store holds no product list (key absent or
empty list), `getAllProducts` seeds the store with the 50 built-in sample
products and returns that list, and `findSimilarProducts` over such a
store searches the sample catalog. -/
theorem getAllProducts_seeds_sample_catalog :
    (∀ fc : Cache, getAllProducts ⟨none, fc⟩ =
      (sampleProducts, ⟨some sampleProducts, fc⟩)) ∧
    (∀ fc : Cache, getAllProducts ⟨some [], fc⟩ =
      (sampleProducts, ⟨some sampleProducts, fc⟩)) ∧
    sampleProducts.length = 50 ∧
    (∀ (simFn : SimFn) (extractFn : ExtractFn) (q : List ℚ) (m : ℚ)
      (fc : Cache),
      findSimilarProducts simFn extractFn q m ⟨none, fc⟩ =
        findSimilarProducts simFn extractFn q m
          ⟨some sampleProducts, fc⟩) := by
  have h50 : sampleProducts.length = 50 := rfl
  have hlen : ¬ sampleProducts.length = 0 := by
    rw [h50]
    norm_num
  refine ⟨fun fc => rfl, fun fc => rfl, h50, ?_⟩
  intro simFn extractFn q m fc
  simp only [findSimilarProducts, getAllProducts, if_neg hlen]
